import Mathlib

/-!
Verification of the streaming chat relay and the food-analysis endpoint of
the HealthScan repository.

Sources embedded here:
* `src/app/api/chat/route.ts` — the `POST /api/chat` handler: it forwards
  the upstream FastAPI `/chat` event stream line by line (keeping exactly
  the lines that start with `data: `), appends its own `data: [DONE]`
  sentinel, and on any error while opening the upstream it streams a fixed
  fallback message word by word.
* `src/README.md` — the FastAPI mock server: `generate_chat_response`
  (canned response selection + word-by-word chunking) and the `/chat`
  endpoint's `generate()` wrapper that frames each chunk as a
  `data: <json>` line.
* `src/app/api/analyze-food/route.ts` — the `POST /api/analyze-food`
  handler and its randomized fallback body.

Modelling conventions:
* Text is `List Char` (`Str`).  JavaScript `split`, `startsWith`, Python
  `str.split()`, `str.lower()` and `in` are embedded as executable
  functions below.
* The upstream HTTP body is modelled as the list of strings yielded by the
  server's `generate()` generator, delivered to the relay one read per
  yield (the transport model used throughout; `StreamingResponse` writes
  one chunk per yield).
* Each `controller.enqueue` of the relay writes a single `\n`-terminated
  line; streams are therefore modelled as lists of lines (without the
  trailing newline).
* `random.choice` / `Math.random()` are modelled by explicit parameters:
  a natural-number index for `random.choice`, and a rational in `[0,1)`
  for each `Math.random()` call.
* JSON encoding (`json.dumps` / `JSON.stringify`) is embedded with the
  standard two-character escapes; code points below 0x20 other than
  `\n`, `\r`, `\t` would in reality be escaped as `\uXXXX`, which never
  matters here (only the absence of raw newlines is relevant to framing).
-/

namespace HealthScan

/-- Text, modelled as a list of characters. -/
abbrev Str := List Char

/-- The characters of a Lean string literal. -/
def str (s : String) : Str := s.data

/-! ### String primitives used by the source -/

/-- JavaScript `s.split(sep)` for a one-character separator: splits at every
occurrence, keeping empty pieces (`"a\n".split("\n") = ["a", ""]`). -/
def splitOnChar (sep : Char) : Str → List Str
  | [] => [[]]
  | c :: cs =>
    match splitOnChar sep cs with
    | [] => [[]]
    | l :: ls => if c = sep then [] :: l :: ls else (c :: l) :: ls

/-- Python `s.lower()` (ASCII lowering suffices for the source's inputs). -/
def pyLower (s : Str) : Str := s.map Char.toLower

/-- Python `pat in s` / substring containment: some contiguous slice of `s`
equals `pat`. -/
def strContains (s pat : Str) : Bool :=
  match s with
  | [] => pat.isPrefixOf []
  | c :: cs => pat.isPrefixOf (c :: cs) || strContains cs pat

/-- Accumulator loop for Python `str.split()` (split on whitespace runs,
dropping empty pieces). -/
def pySplitWSAux : Str → Str → List Str
  | [], acc => if acc = [] then [] else [acc.reverse]
  | c :: cs, acc =>
    if c.isWhitespace then
      if acc = [] then pySplitWSAux cs []
      else acc.reverse :: pySplitWSAux cs []
    else pySplitWSAux cs (c :: acc)

/-- Python `s.split()`. -/
def pySplitWS (s : Str) : List Str := pySplitWSAux s []

/-- Words joined by single spaces (the result of re-concatenating the
word-by-word chunks produced from `words`). -/
def joinWordsSpace : List Str → Str
  | [] => []
  | [w] => w
  | w :: ws => w ++ ' ' :: joinWordsSpace ws

/-! ### JSON encoding of one content fragment -/

/-- One character under JSON string escaping. -/
def jsonEscapeChar (c : Char) : Str :=
  if c = '\\' then ['\\', '\\']
  else if c = '"' then ['\\', '"']
  else if c = '\n' then ['\\', 'n']
  else if c = '\r' then ['\\', 'r']
  else if c = '\t' then ['\\', 't']
  else [c]

/-- JSON string escaping. -/
def jsonEscape (s : Str) : Str := s.flatMap jsonEscapeChar

/-- Python `json.dumps(\x7b"content": chunk\x7d)` (a space after the colon). -/
def contentJsonPy (chunk : Str) : Str :=
  str "\x7b\"content\": \"" ++ jsonEscape chunk ++ str "\"\x7d"

/-- JavaScript `JSON.stringify(\x7bcontent: chunk\x7d)` (no space after the
colon). -/
def contentJsonJs (chunk : Str) : Str :=
  str "\x7b\"content\":\"" ++ jsonEscape chunk ++ str "\"\x7d"

/-! ### Decoding a stream line (the client's view, cf. `llm-chat.tsx`) -/

/-- Strip a leading occurrence of `p` from `s`, if present. -/
def stripLead : Str → Str → Option Str
  | [], s => some s
  | _ :: _, [] => none
  | a :: as, b :: bs => if a = b then stripLead as bs else none

/-- Undo one JSON string escape. -/
def jsonUnescapeChar (e : Char) : Option Char :=
  if e = '\\' then some '\\'
  else if e = '"' then some '"'
  else if e = 'n' then some '\n'
  else if e = 'r' then some '\r'
  else if e = 't' then some '\t'
  else none

/-- Scan a JSON string body up to its closing quote, undoing the escapes;
returns the decoded text and the remainder after the closing quote. -/
def scanJsonString : Str → Option (Str × Str)
  | [] => none
  | c :: rest =>
    if c = '"' then some ([], rest)
    else if c = '\\' then
      match rest with
      | [] => none
      | e :: rest2 =>
        match jsonUnescapeChar e with
        | none => none
        | some d =>
          match scanJsonString rest2 with
          | none => none
          | some (s, r) => some (d :: s, r)
    else
      match scanJsonString rest with
      | none => none
      | some (s, r) => some (c :: s, r)

/-- Parse a `data:` line payload of the form
`\x7b"content": "<text>"\x7d` (with or without the space after the colon),
returning the decoded `content` field. -/
def parsePayload (p : Str) : Option Str :=
  match stripLead (str "\x7b\"content\":") p with
  | none => none
  | some rest =>
    let rest := match rest with
      | ' ' :: r => r
      | r => r
    match rest with
    | '"' :: body =>
      match scanJsonString body with
      | some (s, ['\x7d']) => some s
      | _ => none
    | _ => none

/-- The `content` carried by one output line: present exactly when the line
is `data: ` followed by a well-formed content object. -/
def lineContent (l : Str) : Option Str :=
  match stripLead (str "data: ") l with
  | none => none
  | some payload => parsePayload payload

/-- The sequence of `content` values carried by a stream's lines, in order. -/
def emittedContents (lines : List Str) : List Str :=
  lines.filterMap lineContent

/-! ### The upstream FastAPI mock server (`src/README.md`) -/

/-- The canned general-nutrition responses (`NUTRITION_RESPONSES`). -/
def NUTRITION_RESPONSES : List Str :=
  [ str "Based on the nutritional analysis, this food contains several important nutrients that support overall health.",
    str "The caloric content appears to be moderate, making it suitable for most dietary plans.",
    str "I notice this food has a good balance of macronutrients including proteins, carbohydrates, and healthy fats.",
    str "From a health perspective, this food provides essential vitamins and minerals your body needs.",
    str "The fiber content in this food can help support digestive health and maintain stable blood sugar levels.",
    str "This food contains antioxidants that may help protect your cells from oxidative stress.",
    str "The protein content makes this a good choice for muscle maintenance and repair.",
    str "Consider pairing this with complementary foods to create a more balanced nutritional profile." ]

/-- One conversation message (`role`, `content`). -/
structure ChatMessage where
  role : Str
  content : Str

/-- The optional analysis context attached to a chat request; fields mirror
the keys `generate_chat_response` reads (`food_name`, `health_score`,
`calories`, `nutritional_info.protein`), each as the text it interpolates. -/
structure AnalysisContext where
  food_name : Option Str
  health_score : Option Int
  calories : Option Str
  protein : Option Str

/-- Response-text selection of `generate_chat_response`: branch on the last
user message and the context exactly as the source does.  `r` stands for
the entropy consumed by `random.choice(NUTRITION_RESPONSES)` (the chosen
index is `r % 8`). -/
def selectResponse (messages : List ChatMessage) (context : Option AnalysisContext)
    (r : Nat) : Str :=
  let lastMessage : Str :=
    match messages.getLast? with
    | some m => m.content
    | none => []
  let general : Str :=
    NUTRITION_RESPONSES.getD (r % NUTRITION_RESPONSES.length) []
  match context with
  | none => general
  | some ctx =>
    match ctx.food_name with
    | none => general
    | some food_name =>
      let health_score : Int := ctx.health_score.getD 75
      let lm := pyLower lastMessage
      if strContains lm (str "calories") then
        str "The " ++ food_name ++ str " contains approximately "
          ++ ctx.calories.getD (str "unknown")
          ++ str " calories. This is considered a moderate caloric content that fits well into most daily meal plans."
      else if strContains lm (str "health") || strContains lm (str "benefit") then
        str "The " ++ food_name ++ str " has a health score of "
          ++ str (toString health_score)
          ++ str "/100. It offers several health benefits including essential nutrients, vitamins, and minerals that support your overall wellness."
      else if strContains lm (str "protein") then
        str "This " ++ food_name ++ str " contains "
          ++ ctx.protein.getD (str "unknown")
          ++ str " of protein, which is important for muscle maintenance and repair."
      else if strContains lm (str "recommend") then
        str "For the " ++ food_name
          ++ str ", I recommend consuming it as part of a balanced meal. You could pair it with complementary foods to enhance its nutritional value."
      else
        str "Regarding the " ++ food_name
          ++ str " you scanned, it\x27s a nutritious choice with a health score of "
          ++ str (toString health_score)
          ++ str "/100. What specific aspect would you like to know more about?"

/-- Word-by-word chunking of the selected response: chunk `i` is
`words[i] + (" " if i < len(words) - 1 else "")`. -/
def chunksFromWords : List Str → List Str
  | [] => []
  | [w] => [w]
  | w :: ws => (w ++ [' ']) :: chunksFromWords ws

/-- The fragment sequence of the Response Producer for one request. -/
def producerChunks (messages : List ChatMessage) (context : Option AnalysisContext)
    (r : Nat) : List Str :=
  chunksFromWords (pySplitWS (selectResponse messages context r))

/-- The strings yielded by `generate_chat_response`: each chunk JSON-encoded
with a trailing newline (`json.dumps(\x7b"content": chunk\x7d) + "\n"`). -/
def generate_chat_response (messages : List ChatMessage)
    (context : Option AnalysisContext) (r : Nat) : List Str :=
  (producerChunks messages context r).map (fun ch => contentJsonPy ch ++ ['\n'])

/-- The strings yielded by the `/chat` endpoint's `generate()` wrapper:
a bare `"data: "` prefix, then `"data: " + chunk` for every generator
chunk, then `"data: [DONE]\n"`. -/
def generate (messages : List ChatMessage) (context : Option AnalysisContext)
    (r : Nat) : List Str :=
  str "data: "
    :: (generate_chat_response messages context r).map (fun c => str "data: " ++ c)
    ++ [str "data: [DONE]\n"]

/-! ### The chat relay (`src/app/api/chat/route.ts`) -/

/-- One read chunk through the relay's loop body: split on `"\n"` and keep
the lines that start with `"data: "`. -/
def forwardLines (chunk : Str) : List Str :=
  (splitOnChar '\n' chunk).filter (fun l => (str "data: ").isPrefixOf l)

/-- The success-path stream of the relay, as the list of lines it enqueues
(each enqueue writes the line plus `"\n"`): the forwarded lines of every
read, then its own `data: [DONE]` sentinel. -/
def relaySuccessLines (reads : List Str) : List Str :=
  ((reads.map forwardLines).flatten) ++ [str "data: [DONE]"]

/-- Events observable on the sink (`ReadableStream` controller). -/
inductive SinkEvent
  | write (line : Str)
  | close
  | errorSignal
  deriving DecidableEq

/-- A run of the success-path stream body.  `reads` are the chunks the
upstream reader delivered; if `failsAfter` is true the next read throws,
control reaches the `catch`, and the relay calls `controller.error`;
otherwise the loop ends on `done`, the relay enqueues the sentinel and
closes. -/
def relayRun (reads : List Str) (failsAfter : Bool) : List SinkEvent :=
  let writes := ((reads.map forwardLines).flatten).map SinkEvent.write
  if failsAfter then writes ++ [SinkEvent.errorSignal]
  else writes ++ [SinkEvent.write (str "data: [DONE]"), SinkEvent.close]

/-- The fixed fallback message of the relay. -/
def fallbackResponse : Str :=
  str "I\x27m a nutrition AI assistant. I can help you understand the nutritional value of your food, suggest healthy alternatives, and answer questions about diet and wellness. What would you like to know?"

/-- `fallbackResponse.split(" ")` (JavaScript split on a single space). -/
def fallbackWords : List Str := splitOnChar ' ' fallbackResponse

/-- State of the fallback `sendChunk` closure: the word list and the mutable
`index`, which starts at 0 in each request's stream. -/
structure SenderState where
  words : List Str
  index : Nat

/-- The lines emitted by repeatedly running `sendChunk` from a given state
until it closes the stream: while `index < words.length` it enqueues
`data: JSON.stringify(\x7bcontent: words[index] + " "\x7d)` plus a newline and
increments `index`; then it enqueues `data: [DONE]` and closes. -/
def senderEmit (s : SenderState) : List Str :=
  if h : s.index < s.words.length then
    (str "data: " ++ contentJsonJs (s.words.get ⟨s.index, h⟩ ++ [' ']))
      :: senderEmit ⟨s.words, s.index + 1⟩
  else [str "data: [DONE]"]
termination_by s.words.length - s.index

/-- The fallback stream of the relay, as the list of enqueued lines. -/
def fallbackLines : List Str := senderEmit ⟨fallbackWords, 0⟩

/-- Outcome of the relay's `fetch` to the upstream `/chat` endpoint. -/
inductive UpstreamOutcome
  | unreachable
  | response (ok : Bool) (reads : List Str)

/-- The lines of the stream returned by `POST /api/chat`: if the fetch
rejects or `response.ok` is false the handler's `catch` returns the
fallback stream; otherwise it returns the forwarding stream over the
body's reads. -/
def postChatLines (u : UpstreamOutcome) : List Str :=
  match u with
  | .unreachable => fallbackLines
  | .response ok reads => if ok then relaySuccessLines reads else fallbackLines

/-- The composed success path: the relay consuming the documented upstream
server's `generate()` stream, one read per yield. -/
def chatStream (messages : List ChatMessage) (context : Option AnalysisContext)
    (r : Nat) : List Str :=
  relaySuccessLines (generate messages context r)

/-- A sequence of served requests: the module scope of `route.ts` binds no
mutable state, so serving a request only appends its (self-contained)
stream to the history of streams. -/
structure World where
  streams : List (List Str)

/-- Serve one `POST /api/chat` request: the handler constructs its own
encoder, producer and `ReadableStream`, so the produced stream is a
function of the request's upstream outcome alone. -/
def servePost (w : World) (u : UpstreamOutcome) : World × List Str :=
  let out := postChatLines u
  (⟨w.streams ++ [out]⟩, out)

/-! ### The food-analysis endpoint (`src/app/api/analyze-food/route.ts`) -/

/-- The decimal rendering of an integer, as interpolated by a template
literal. -/
def intToStr (n : Int) : Str := (toString n).data

/-- `Math.floor(Math.random() * 40 + 60)`, with the `Math.random()` result
modelled as a rational `q` (a real run has `0 ≤ q < 1`). -/
def jsRandomScore (q : ℚ) : Int := ⌊q * 40 + 60⌋

/-- `Math.floor(Math.random() * 200 + 100)`. -/
def jsRandomCalories (q : ℚ) : Int := ⌊q * 200 + 100⌋

/-- The JSON body returned by `POST /api/analyze-food`. -/
structure AnalyzeResponse where
  success : Bool
  food_name : Str
  health_score : Int
  calories : Int
  analysis : Str
  protein : Str
  carbs : Str
  fat : Str
  fiber : Str
  health_benefits : List Str
  recommendations : List Str
  deriving DecidableEq

/-- The structured result returned by the upstream `/analyze-food`
collaborator on its success path. -/
structure UpstreamAnalysis where
  food_name : Str
  health_score : Int
  calories : Int
  analysis : Str
  protein : Str
  carbs : Str
  fat : Str
  fiber : Str
  health_benefits : List Str
  recommendations : List Str

/-- Outcome of the handler's `fetch` to the upstream `/analyze-food`. -/
inductive AnalyzeUpstream
  | unreachable
  | response (ok : Bool) (result : UpstreamAnalysis)

/-- The markdown `analysis` text of the fallback body; `q` is the
`Math.random()` draw consumed by the `Health Score:` interpolation. -/
def fallbackAnalysisText (q : ℚ) : Str :=
  str "## Food Analysis Results\n\n**Nutritional Overview:**\nThis appears to be a healthy food choice with good nutritional value.\n\n**Key Benefits:**\n- Rich in essential vitamins and minerals\n- Good source of dietary fiber\n- Contains antioxidants\n- Low in saturated fats\n\n**Recommendations:**\n- Pair with complementary foods for balanced nutrition\n- Consider portion size for optimal health benefits\n- Great choice for maintaining a healthy diet\n\n**Health Score: "
    ++ intToStr (jsRandomScore q) ++ str "/100**"

/-- The fallback JSON body built in the handler's `catch` block; `q1`, `q2`
and `q3` are the three `Math.random()` draws in source order (top-level
`health_score`, `calories`, and the score embedded in `analysis`). -/
def analyzeFallback (q1 q2 q3 : ℚ) : AnalyzeResponse :=
  { success := true
    food_name := str "Sample Food"
    health_score := jsRandomScore q1
    calories := jsRandomCalories q2
    analysis := fallbackAnalysisText q3
    protein := str "12g"
    carbs := str "25g"
    fat := str "8g"
    fiber := str "5g"
    health_benefits :=
      [str "Supports immune system", str "Promotes digestive health", str "Rich in antioxidants"]
    recommendations :=
      [str "Consume as part of balanced meal", str "Best eaten fresh", str "Pair with protein source"] }

/-- The `POST /api/analyze-food` handler: on a reachable, ok upstream it
passes the result through with `success: true`; any fetch rejection or
non-ok status lands in the `catch` block, which also answers
`success: true` with the randomized fallback body. -/
def analyzePost (u : AnalyzeUpstream) (q1 q2 q3 : ℚ) : AnalyzeResponse :=
  match u with
  | .response true res =>
    { success := true
      food_name := res.food_name
      health_score := res.health_score
      calories := res.calories
      analysis := res.analysis
      protein := res.protein
      carbs := res.carbs
      fat := res.fat
      fiber := res.fiber
      health_benefits := res.health_benefits
      recommendations := res.recommendations }
  | .response false _ => analyzeFallback q1 q2 q3
  | .unreachable => analyzeFallback q1 q2 q3

/-! ## Lemmas about the string primitives -/

theorem splitOnChar_cons (sep c : Char) (cs : Str) :
    splitOnChar sep (c :: cs) =
      match splitOnChar sep cs with
      | [] => [[]]
      | l :: ls => if c = sep then [] :: l :: ls else (c :: l) :: ls := rfl

theorem splitOnChar_ne_nil (sep : Char) (s : Str) : splitOnChar sep s ≠ [] := by
  cases s with
  | nil => simp [splitOnChar]
  | cons c cs =>
    rw [splitOnChar_cons]
    cases h : splitOnChar sep cs with
    | nil => simp
    | cons l ls => by_cases hc : c = sep <;> simp [hc]

theorem splitOnChar_no_sep {sep : Char} {s : Str} (h : sep ∉ s) :
    splitOnChar sep s = [s] := by
  induction s with
  | nil => rfl
  | cons c cs ih =>
    have hc : c ≠ sep := fun he => h (he ▸ List.mem_cons_self c cs)
    have hcs : sep ∉ cs := fun hm => h (List.mem_cons_of_mem c hm)
    rw [splitOnChar_cons, ih hcs]
    simp [hc]

theorem splitOnChar_append_sep {sep : Char} {xs : Str} (h : sep ∉ xs) (ys : Str) :
    splitOnChar sep (xs ++ sep :: ys) = xs :: splitOnChar sep ys := by
  induction xs with
  | nil =>
    rw [List.nil_append, splitOnChar_cons]
    cases hy : splitOnChar sep ys with
    | nil => exact absurd hy (splitOnChar_ne_nil sep ys)
    | cons l ls => simp
  | cons c cs ih =>
    have hc : c ≠ sep := fun he => h (he ▸ List.mem_cons_self c cs)
    have hcs : sep ∉ cs := fun hm => h (List.mem_cons_of_mem c hm)
    rw [List.cons_append, splitOnChar_cons, ih hcs]
    simp [hc]

theorem isPrefixOf_append_self (p xs : Str) : p.isPrefixOf (p ++ xs) = true := by
  induction p with
  | nil => simp
  | cons a as ih => simp [List.isPrefixOf_cons₂, ih]

/-! ## The JSON encoding contains no raw newline -/

theorem newline_not_mem_jsonEscapeChar (c : Char) : '\n' ∉ jsonEscapeChar c := by
  unfold jsonEscapeChar
  split
  · simp
  · split
    · simp
    · split
      · simp
      · split
        · simp
        · split
          · simp
          · rename_i h1 h2 h3 h4 h5
            intro hm
            rw [List.mem_singleton] at hm
            exact h3 hm.symm

theorem newline_not_mem_jsonEscape (s : Str) : '\n' ∉ jsonEscape s := by
  intro hm
  rw [jsonEscape, List.mem_flatMap] at hm
  obtain ⟨c, _, hc⟩ := hm
  exact newline_not_mem_jsonEscapeChar c hc

theorem newline_not_mem_contentJsonPy (ch : Str) : '\n' ∉ contentJsonPy ch := by
  intro hm
  rw [contentJsonPy] at hm
  rw [List.append_assoc, List.mem_append, List.mem_append] at hm
  rcases hm with h | h | h
  · revert h; decide
  · exact newline_not_mem_jsonEscape ch h
  · revert h; decide

theorem newline_not_mem_contentJsonJs (ch : Str) : '\n' ∉ contentJsonJs ch := by
  intro hm
  rw [contentJsonJs] at hm
  rw [List.append_assoc, List.mem_append, List.mem_append] at hm
  rcases hm with h | h | h
  · revert h; decide
  · exact newline_not_mem_jsonEscape ch h
  · revert h; decide

/-! ## Behaviour of the relay's forwarding on the upstream's yields -/

theorem forwardLines_bare : forwardLines (str "data: ") = [str "data: "] := by decide

theorem forwardLines_done : forwardLines (str "data: [DONE]\n") = [str "data: [DONE]"] := by
  decide

theorem forwardLines_frame (ch : Str) :
    forwardLines (str "data: " ++ (contentJsonPy ch ++ ['\n'])) =
      [str "data: " ++ contentJsonPy ch] := by
  have hnl : '\n' ∉ str "data: " ++ contentJsonPy ch := by
    rw [List.mem_append]
    rintro (h | h)
    · revert h; decide
    · exact newline_not_mem_contentJsonPy ch h
  have hsplit :
      splitOnChar '\n' (str "data: " ++ (contentJsonPy ch ++ ['\n'])) =
        [str "data: " ++ contentJsonPy ch, []] := by
    have : str "data: " ++ (contentJsonPy ch ++ ['\n']) =
        (str "data: " ++ contentJsonPy ch) ++ '\n' :: [] := by simp
    rw [this, splitOnChar_append_sep hnl]
    rfl
  have hemp : List.isPrefixOf (str "data: ") ([] : Str) = false := by decide
  rw [forwardLines, hsplit, List.filter_cons, List.filter_cons,
    isPrefixOf_append_self (str "data: ") (contentJsonPy ch), hemp]
  simp

/-- Flattening a list of singleton lists is the list of their elements. -/
theorem flatten_singletons {α β : Type} (f : α → β) (l : List α) :
    (l.map (fun a => [f a])).flatten = l.map f := by
  induction l with
  | nil => rfl
  | cons a as ih => simp only [List.map_cons, List.flatten_cons, ih, List.singleton_append]

/-- The composed success path, written out: the forwarded bare `data: `
prefix line, one framed line per producer chunk, the forwarded upstream
sentinel, and the relay's own sentinel. -/
theorem chatStream_eq (m : List ChatMessage) (c : Option AnalysisContext) (r : Nat) :
    chatStream m c r =
      str "data: "
        :: (producerChunks m c r).map (fun ch => str "data: " ++ contentJsonPy ch)
        ++ [str "data: [DONE]", str "data: [DONE]"] := by
  have hframes : ∀ chs : List Str,
      ((chs.map (fun ch => str "data: " ++ (contentJsonPy ch ++ ['\n']))).map
          forwardLines).flatten
        = chs.map (fun ch => str "data: " ++ contentJsonPy ch) := by
    intro chs
    induction chs with
    | nil => rfl
    | cons a as ih =>
      simp only [List.map_cons, List.flatten_cons, forwardLines_frame, ih,
        List.singleton_append]
  have hm : List.map (fun c => str "data: " ++ c)
        (List.map (fun ch => contentJsonPy ch ++ ['\n']) (producerChunks m c r))
      = List.map (fun ch => str "data: " ++ (contentJsonPy ch ++ ['\n']))
        (producerChunks m c r) := by
    rw [List.map_map]; rfl
  rw [chatStream, relaySuccessLines, generate, generate_chat_response, hm]
  simp only [List.map_cons, List.map_append, List.map_singleton, forwardLines_bare,
    forwardLines_done, List.flatten_cons, List.flatten_append, hframes]
  simp

/-! ## The client-side decoder inverts the encoders -/

theorem stripLead_append (p s : Str) : stripLead p (p ++ s) = some s := by
  induction p with
  | nil => rfl
  | cons a as ih => simp [stripLead, ih]

theorem scanJsonString_cons (c : Char) (rest : Str) :
    scanJsonString (c :: rest) =
      if c = '"' then some ([], rest)
      else if c = '\\' then
        match rest with
        | [] => none
        | e :: rest2 =>
          match jsonUnescapeChar e with
          | none => none
          | some d =>
            match scanJsonString rest2 with
            | none => none
            | some (s, r) => some (d :: s, r)
      else
        match scanJsonString rest with
        | none => none
        | some (s, r) => some (c :: s, r) := by
  rw [scanJsonString.eq_def]
  rfl

theorem scanJsonString_roundtrip (s r : Str) :
    scanJsonString (jsonEscape s ++ '"' :: r) = some (s, r) := by
  induction s with
  | nil =>
    show scanJsonString ('"' :: r) = some ([], r)
    rw [scanJsonString_cons, if_pos rfl]
  | cons c cs ih =>
    show scanJsonString ((jsonEscapeChar c ++ jsonEscape cs) ++ '"' :: r) = some (c :: cs, r)
    by_cases h1 : c = '\\'
    · subst h1
      show (match scanJsonString (jsonEscape cs ++ '"' :: r) with
            | none => none
            | some (s, r) => some ('\\' :: s, r)) = some ('\\' :: cs, r)
      rw [ih]
    · by_cases h2 : c = '"'
      · subst h2
        show (match scanJsonString (jsonEscape cs ++ '"' :: r) with
              | none => none
              | some (s, r) => some ('"' :: s, r)) = some ('"' :: cs, r)
        rw [ih]
      · by_cases h3 : c = '\n'
        · subst h3
          show (match scanJsonString (jsonEscape cs ++ '"' :: r) with
                | none => none
                | some (s, r) => some ('\n' :: s, r)) = some ('\n' :: cs, r)
          rw [ih]
        · by_cases h4 : c = '\r'
          · subst h4
            show (match scanJsonString (jsonEscape cs ++ '"' :: r) with
                  | none => none
                  | some (s, r) => some ('\r' :: s, r)) = some ('\r' :: cs, r)
            rw [ih]
          · by_cases h5 : c = '\t'
            · subst h5
              show (match scanJsonString (jsonEscape cs ++ '"' :: r) with
                    | none => none
                    | some (s, r) => some ('\t' :: s, r)) = some ('\t' :: cs, r)
              rw [ih]
            · have he : jsonEscapeChar c = [c] := by
                rw [jsonEscapeChar, if_neg h1, if_neg h2, if_neg h3, if_neg h4, if_neg h5]
              rw [he]
              show scanJsonString (c :: (jsonEscape cs ++ '"' :: r)) = some (c :: cs, r)
              rw [scanJsonString_cons, if_neg h2, if_neg h1, ih]

theorem parsePayload_py (s : Str) : parsePayload (contentJsonPy s) = some s := by
  have hd : contentJsonPy s =
      str "\x7b\"content\":" ++ (' ' :: '"' :: (jsonEscape s ++ '"' :: ['\x7d'])) := by
    have h1 : str "\x7b\"content\": \"" = str "\x7b\"content\":" ++ [' ', '"'] := by decide
    have h2 : str "\"\x7d" = '"' :: ['\x7d'] := by decide
    rw [contentJsonPy, h1, h2]
    simp [List.append_assoc]
  rw [hd]
  unfold parsePayload
  rw [stripLead_append]
  show (match scanJsonString (jsonEscape s ++ '"' :: ['\x7d']) with
        | some (s, ['\x7d']) => some s
        | _ => none) = some s
  rw [scanJsonString_roundtrip]
  rfl

theorem parsePayload_js (s : Str) : parsePayload (contentJsonJs s) = some s := by
  have hd : contentJsonJs s =
      str "\x7b\"content\":" ++ ('"' :: (jsonEscape s ++ '"' :: ['\x7d'])) := by
    have h1 : str "\x7b\"content\":\"" = str "\x7b\"content\":" ++ ['"'] := by decide
    have h2 : str "\"\x7d" = '"' :: ['\x7d'] := by decide
    rw [contentJsonJs, h1, h2]
    simp [List.append_assoc]
  rw [hd]
  unfold parsePayload
  rw [stripLead_append]
  show (match scanJsonString (jsonEscape s ++ '"' :: ['\x7d']) with
        | some (s, ['\x7d']) => some s
        | _ => none) = some s
  rw [scanJsonString_roundtrip]
  rfl

theorem lineContent_framePy (ch : Str) :
    lineContent (str "data: " ++ contentJsonPy ch) = some ch := by
  rw [lineContent]
  rw [stripLead_append]
  exact parsePayload_py ch

theorem lineContent_frameJs (ch : Str) :
    lineContent (str "data: " ++ contentJsonJs ch) = some ch := by
  rw [lineContent]
  rw [stripLead_append]
  exact parsePayload_js ch

theorem lineContent_bare : lineContent (str "data: ") = none := by decide

theorem lineContent_sentinel : lineContent (str "data: [DONE]") = none := by decide

theorem sentinel_payload_not_json : parsePayload (str "[DONE]") = none := by decide

/-- A framed fragment line is never the sentinel line. -/
theorem framePy_ne_sentinel (ch : Str) :
    str "data: " ++ contentJsonPy ch ≠ str "data: [DONE]" := by
  intro h
  have := lineContent_framePy ch
  rw [h, lineContent_sentinel] at this
  exact Option.noConfusion this

/-- Distinct fragments give distinct framed lines. -/
theorem framePy_injective (a b : Str)
    (h : str "data: " ++ contentJsonPy a = str "data: " ++ contentJsonPy b) : a = b := by
  have ha := lineContent_framePy a
  rw [h, lineContent_framePy b] at ha
  exact (Option.some.injEq _ _ ▸ ha).symm

/-! ## Content extraction over the two streams -/

theorem emittedContents_framesPy (chs : List Str) :
    emittedContents (chs.map (fun ch => str "data: " ++ contentJsonPy ch)) = chs := by
  induction chs with
  | nil => rfl
  | cons a as ih =>
    rw [emittedContents] at ih ⊢
    simp only [List.map_cons, List.filterMap_cons, lineContent_framePy, ih]

theorem emittedContents_framesJs (chs : List Str) :
    emittedContents (chs.map (fun ch => str "data: " ++ contentJsonJs ch)) = chs := by
  induction chs with
  | nil => rfl
  | cons a as ih =>
    rw [emittedContents] at ih ⊢
    simp only [List.map_cons, List.filterMap_cons, lineContent_frameJs, ih]

/-- The contents carried by the success-path stream are exactly the
producer's chunks, in order. -/
theorem emittedContents_chatStream (m : List ChatMessage) (c : Option AnalysisContext)
    (r : Nat) :
    emittedContents (chatStream m c r) = producerChunks m c r := by
  rw [chatStream_eq m c r, emittedContents]
  simp only [List.filterMap_cons, lineContent_bare, lineContent_sentinel,
    List.filterMap_append, List.filterMap_nil]
  have := emittedContents_framesPy (producerChunks m c r)
  rw [emittedContents] at this
  simp [this]

/-- Concatenating the word-by-word chunks gives the words joined by single
spaces. -/
theorem flatten_chunksFromWords (ws : List Str) :
    (chunksFromWords ws).flatten = joinWordsSpace ws := by
  induction ws with
  | nil => rfl
  | cons w vs ih =>
    cases vs with
    | nil => simp [chunksFromWords, joinWordsSpace]
    | cons v vs2 =>
      rw [show chunksFromWords (w :: v :: vs2) = (w ++ [' ']) :: chunksFromWords (v :: vs2)
          from rfl,
        show joinWordsSpace (w :: v :: vs2) = w ++ ' ' :: joinWordsSpace (v :: vs2) from rfl]
      rw [List.flatten_cons, ih]
      simp

/-! ## The fallback sender -/

/-- Running `sendChunk` from index `i` emits one framed line per remaining
word, in order, then the sentinel. -/
theorem senderEmit_eq (ws : List Str) (i : Nat) :
    senderEmit ⟨ws, i⟩ =
      ((ws.drop i).map (fun w => str "data: " ++ contentJsonJs (w ++ [' '])))
        ++ [str "data: [DONE]"] := by
  have H : ∀ n i, ws.length - i = n →
      senderEmit ⟨ws, i⟩ =
        ((ws.drop i).map (fun w => str "data: " ++ contentJsonJs (w ++ [' '])))
          ++ [str "data: [DONE]"] := by
    intro n
    induction n with
    | zero =>
      intro i h0
      have hge : ¬ i < ws.length := by omega
      rw [senderEmit, dif_neg hge, List.drop_eq_nil_of_le (by omega)]
      rfl
    | succ n ihn =>
      intro i h
      have hlt : i < ws.length := by omega
      rw [senderEmit, dif_pos hlt, ihn (i + 1) (by omega),
        List.drop_eq_getElem_cons hlt, List.map_cons]
      rfl
  exact H (ws.length - i) i rfl

/-- The fallback stream, written out. -/
theorem fallbackLines_eq :
    fallbackLines =
      (fallbackWords.map (fun w => str "data: " ++ contentJsonJs (w ++ [' '])))
        ++ [str "data: [DONE]"] := by
  rw [fallbackLines, senderEmit_eq, List.drop_zero]

/-- The contents carried by the fallback stream: each word with a trailing
space, in order. -/
theorem emittedContents_fallback :
    emittedContents fallbackLines = fallbackWords.map (fun w => w ++ [' ']) := by
  rw [fallbackLines_eq, emittedContents, List.filterMap_append]
  have h1 := emittedContents_framesJs (fallbackWords.map (fun w => w ++ [' ']))
  rw [emittedContents, List.map_map] at h1
  have h2 : (List.filterMap lineContent [str "data: [DONE]"]) = [] := by
    simp [List.filterMap_cons, lineContent_sentinel]
  rw [h2, List.append_nil]
  exact h1

/-! ## Sentinel occurrences and the last line -/

theorem count_sentinel_frames (chs : List Str) :
    (chs.map (fun ch => str "data: " ++ contentJsonPy ch)).count (str "data: [DONE]") = 0 := by
  rw [List.count_eq_zero]
  intro hmem
  rw [List.mem_map] at hmem
  obtain ⟨ch, _, h⟩ := hmem
  exact framePy_ne_sentinel ch h

theorem count_sentinel_chatStream (m : List ChatMessage) (c : Option AnalysisContext)
    (r : Nat) :
    (chatStream m c r).count (str "data: [DONE]") = 2 := by
  rw [chatStream_eq]
  rw [List.count_append, List.count_cons, count_sentinel_frames]
  decide

theorem getLast_chatStream (m : List ChatMessage) (c : Option AnalysisContext)
    (r : Nat) :
    (chatStream m c r).getLast? = some (str "data: [DONE]") := by
  rw [chatStream_eq]
  have hsh :
      str "data: "
          :: (producerChunks m c r).map (fun ch => str "data: " ++ contentJsonPy ch)
          ++ [str "data: [DONE]", str "data: [DONE]"]
        = (str "data: "
            :: (producerChunks m c r).map (fun ch => str "data: " ++ contentJsonPy ch)
            ++ [str "data: [DONE]"]) ++ [str "data: [DONE]"] := by
    simp
  rw [hsh]
  exact List.getLast?_concat _

set_option maxRecDepth 8000 in
theorem count_sentinel_fallback : fallbackLines.count (str "data: [DONE]") = 1 := by
  rw [fallbackLines_eq]
  decide

theorem getLast_fallback : fallbackLines.getLast? = some (str "data: [DONE]") := by
  rw [fallbackLines_eq]
  exact List.getLast?_concat _

/-! ## The empty-history default response -/

theorem getD_mod_mem (l : List Str) (hl : l ≠ []) (r : Nat) :
    l.getD (r % l.length) [] ∈ l := by
  have hpos : 0 < l.length := List.length_pos.mpr hl
  have hlt : r % l.length < l.length := Nat.mod_lt _ hpos
  rw [List.getD_eq_getElem?_getD, List.getElem?_eq_getElem hlt]
  exact List.getElem_mem hlt

theorem selectResponse_empty (r : Nat) :
    selectResponse [] none r = NUTRITION_RESPONSES.getD (r % NUTRITION_RESPONSES.length) [] :=
  rfl

theorem selectResponse_empty_mem (r : Nat) :
    selectResponse [] none r ∈ NUTRITION_RESPONSES := by
  rw [selectResponse_empty]
  apply getD_mod_mem
  rw [NUTRITION_RESPONSES]
  exact List.cons_ne_nil _ _

theorem nutrition_responses_nonempty : ∀ x ∈ NUTRITION_RESPONSES, x ≠ [] := by decide

/-! ## Ranges of the randomized fallback scores -/

theorem jsRandomScore_bounds (q : ℚ) (h0 : 0 ≤ q) (h1 : q < 1) :
    60 ≤ jsRandomScore q ∧ jsRandomScore q ≤ 99 := by
  rw [jsRandomScore]
  constructor
  · apply Int.le_floor.mpr
    push_cast
    linarith
  · have hlt : (⌊q * 40 + 60⌋ : Int) < 100 := by
      apply Int.floor_lt.mpr
      push_cast
      linarith
    omega

/-! ## Claims -/

/-- C1, counterexample: on the success path against the documented upstream
(empty history, no context, first canned response) the relay's output
contains the sentinel line twice — the forwarded upstream sentinel and the
relay's own — so "exactly one termination sentinel line" fails. -/
theorem c1_counterexample :
    (chatStream [] none 0).count (str "data: [DONE]") = 2
    ∧ ¬ (chatStream [] none 0).count (str "data: [DONE]") = 1 := by
  refine ⟨count_sentinel_chatStream [] none 0, ?_⟩
  rw [count_sentinel_chatStream [] none 0]
  omega

/-- C1, amended: on the success path the relay writes exactly two sentinel
lines (the upstream's own sentinel is forwarded because it starts with
`data: `, and the relay appends another), and the last line written is the
sentinel; on the fallback path it writes exactly one sentinel line, and it
is the last line written. -/
theorem c1_amended :
    ∀ (m : List ChatMessage) (c : Option AnalysisContext) (r : Nat)
      (reads : List Str),
      (chatStream m c r).count (str "data: [DONE]") = 2
      ∧ (chatStream m c r).getLast? = some (str "data: [DONE]")
      ∧ postChatLines (.response false reads) = fallbackLines
      ∧ fallbackLines.count (str "data: [DONE]") = 1
      ∧ fallbackLines.getLast? = some (str "data: [DONE]") := by
  intro m c r reads
  exact ⟨count_sentinel_chatStream m c r, getLast_chatStream m c r, rfl,
    count_sentinel_fallback, getLast_fallback⟩

/-- C2, counterexample: with a context whose `food_name` contains two
consecutive spaces (the context is client-supplied), the producer's
word-splitting collapses the whitespace, so concatenating the streamed
`content` values does not reconstruct the selected response text. -/
theorem c2_counterexample :
    List.flatten (emittedContents (chatStream [⟨str "user", str "hi"⟩]
        (some ⟨some (str "Nutri  Bar"), none, none, none⟩) 0))
      ≠ selectResponse [⟨str "user", str "hi"⟩]
        (some ⟨some (str "Nutri  Bar"), none, none, none⟩) 0 := by
  rw [emittedContents_chatStream, producerChunks, flatten_chunksFromWords]
  decide

set_option maxRecDepth 20000 in
/-- C2, amended: concatenating the `content` values of all data lines
emitted on the success path yields the words of the selected response
joined by single spaces (each producer fragment appears exactly once, in
order); this equals the selected response text itself whenever that text
has no consecutive, leading or trailing whitespace, as is the case for
every canned nutrition response. -/
theorem c2_amended :
    ∀ (m : List ChatMessage) (c : Option AnalysisContext) (r : Nat),
      List.flatten (emittedContents (chatStream m c r))
          = joinWordsSpace (pySplitWS (selectResponse m c r))
      ∧ (∀ resp ∈ NUTRITION_RESPONSES, joinWordsSpace (pySplitWS resp) = resp) := by
  intro m c r
  constructor
  · rw [emittedContents_chatStream, producerChunks, flatten_chunksFromWords]
  · decide

set_option maxRecDepth 20000 in
/-- C2, witness for the amended claim at a concrete run and canned text. -/
theorem c2_witness :
    List.flatten (emittedContents (chatStream [] none 0))
        = joinWordsSpace (pySplitWS (selectResponse [] none 0))
    ∧ joinWordsSpace (pySplitWS (NUTRITION_RESPONSES.getD 0 []))
        = NUTRITION_RESPONSES.getD 0 [] :=
  ⟨(c2_amended [] none 0).1,
    (c2_amended [] none 0).2 (NUTRITION_RESPONSES.getD 0 []) (by decide)⟩

/-- C3: the data lines of the success-path stream carry exactly the
producer's fragments, in production order — no fragment is reordered,
merged, dropped or duplicated — and the framing map is injective, so each
input fragment corresponds to exactly one output line. -/
theorem c3_order_preservation :
    ∀ (m : List ChatMessage) (c : Option AnalysisContext) (r : Nat),
      emittedContents (chatStream m c r) = producerChunks m c r
      ∧ (∀ a b : Str,
          str "data: " ++ contentJsonPy a = str "data: " ++ contentJsonPy b → a = b) := by
  intro m c r
  exact ⟨emittedContents_chatStream m c r, framePy_injective⟩

/-- C3, witness at a concrete run and fragment pair. -/
theorem c3_witness :
    emittedContents (chatStream [] none 0) = producerChunks [] none 0
    ∧ ([' '] : Str) = [' '] :=
  ⟨(c3_order_preservation [] none 0).1,
    (c3_order_preservation [] none 0).2 [' '] [' '] rfl⟩

/-- C4, counterexample: after one fragment has been forwarded, a mid-stream
read failure makes the relay signal the error on the sink
(`controller.error`) and stop — it neither writes the `data: [DONE]`
sentinel nor closes the sink, contradicting the claim that it still
attempts to emit the sentinel and close. -/
theorem c4_counterexample :
    relayRun [str "data: hi\n"] true
        = [SinkEvent.write (str "data: hi"), SinkEvent.errorSignal]
    ∧ SinkEvent.write (str "data: [DONE]") ∉ relayRun [str "data: hi\n"] true
    ∧ SinkEvent.close ∉ relayRun [str "data: hi\n"] true := by
  decide

/-- C4, amended: on a mid-stream failure the relay performs exactly the
forwarding writes it would have performed on the success run up to the
failure, then signals the error on the sink's error channel instead of
writing the sentinel and closing; the sink is never closed on the failure
run, and the error signal (not a sentinel) is what unblocks the client's
reader. -/
theorem c4_amended :
    ∀ reads : List Str,
      relayRun reads true
          = ((relayRun reads false).dropLast).dropLast ++ [SinkEvent.errorSignal]
      ∧ ∀ e ∈ relayRun reads true, e ≠ SinkEvent.close := by
  intro reads
  constructor
  · rw [relayRun, relayRun]
    simp only [if_true, if_false, Bool.false_eq_true, ite_true, ite_false]
    have hsh : ((reads.map forwardLines).flatten).map SinkEvent.write
          ++ [SinkEvent.write (str "data: [DONE]"), SinkEvent.close]
        = (((reads.map forwardLines).flatten).map SinkEvent.write
            ++ [SinkEvent.write (str "data: [DONE]")]) ++ [SinkEvent.close] := by
      simp
    rw [hsh, List.dropLast_concat, List.dropLast_concat]
  · intro e he
    rw [relayRun] at he
    simp only [if_true, ite_true] at he
    rcases List.mem_append.mp he with h | h
    · rw [List.mem_map] at h
      obtain ⟨l, _, hl⟩ := h
      rw [← hl]
      intro hc
      exact SinkEvent.noConfusion hc
    · rw [List.mem_singleton] at h
      rw [h]
      intro hc
      exact SinkEvent.noConfusion hc

/-- C4, witness for the amended claim at a concrete failing run. -/
theorem c4_witness :
    relayRun [] true = ((relayRun [] false).dropLast).dropLast ++ [SinkEvent.errorSignal]
    ∧ SinkEvent.errorSignal ≠ SinkEvent.close :=
  ⟨(c4_amended []).1, (c4_amended []).2 SinkEvent.errorSignal (by decide)⟩

/-- C5: whenever the upstream fetch rejects or resolves with a non-success
status, `POST /api/chat` returns the fallback stream: the single fixed
fallback message streamed word by word, each word framed as a
`data: <json content>` line exactly as on the normal path, whose carried
contents are the fallback words in order, terminated by exactly one
sentinel line which is the last line of the stream. -/
theorem c5_fallback_stream :
    ∀ u : UpstreamOutcome,
      (u = .unreachable ∨ ∃ reads, u = .response false reads) →
        postChatLines u = fallbackLines
        ∧ fallbackLines =
            (fallbackWords.map (fun w => str "data: " ++ contentJsonJs (w ++ [' '])))
              ++ [str "data: [DONE]"]
        ∧ emittedContents fallbackLines = fallbackWords.map (fun w => w ++ [' '])
        ∧ fallbackLines.getLast? = some (str "data: [DONE]")
        ∧ fallbackLines.count (str "data: [DONE]") = 1 := by
  intro u h
  refine ⟨?_, fallbackLines_eq, emittedContents_fallback, getLast_fallback,
    count_sentinel_fallback⟩
  rcases h with h | ⟨reads, h⟩ <;> subst h <;> rfl

/-- C5, witness at the unreachable-upstream outcome. -/
theorem c5_witness :
    postChatLines .unreachable = fallbackLines
    ∧ fallbackLines.getLast? = some (str "data: [DONE]") :=
  ⟨(c5_fallback_stream .unreachable (Or.inl rfl)).1,
    (c5_fallback_stream .unreachable (Or.inl rfl)).2.2.2.1⟩

/-- C6, counterexample: the first line of the success-path stream is the
bare `data: ` line (the upstream's leading `data: ` yield, forwarded
because it starts with the marker); it is not the sentinel and carries no
JSON content object, so "every non-sentinel line is `data: ` followed by
one JSON object with a `content` field" fails. -/
theorem c6_counterexample :
    (chatStream [] none 0).head? = some (str "data: ")
    ∧ str "data: " ≠ str "data: [DONE]"
    ∧ lineContent (str "data: ") = none := by
  refine ⟨?_, by decide, lineContent_bare⟩
  rw [chatStream_eq]
  rfl

/-- C6, amended: every line of the success-path stream is the initial bare
`data: ` line, a sentinel line, or `data: ` followed by exactly one JSON
object whose `content` field is a producer fragment; the stream terminates
with the literal `data: [DONE]` line, whose payload is not parseable as a
JSON content object.  On the fallback path every line satisfies the
original claim. -/
theorem c6_line_format :
    ∀ (m : List ChatMessage) (c : Option AnalysisContext) (r : Nat),
      (∀ l ∈ chatStream m c r,
          l = str "data: "
          ∨ l = str "data: [DONE]"
          ∨ ∃ ch ∈ producerChunks m c r,
              l = str "data: " ++ contentJsonPy ch ∧ lineContent l = some ch)
      ∧ (chatStream m c r).getLast? = some (str "data: [DONE]")
      ∧ parsePayload (str "[DONE]") = none
      ∧ (∀ l ∈ fallbackLines, l = str "data: [DONE]" ∨ ∃ s, lineContent l = some s) := by
  intro m c r
  refine ⟨?_, getLast_chatStream m c r, sentinel_payload_not_json, ?_⟩
  · rw [chatStream_eq]
    intro l hl
    rcases List.mem_append.mp hl with h | h
    · rcases List.mem_cons.mp h with h | h
      · exact Or.inl h
      · rw [List.mem_map] at h
        obtain ⟨ch, hch, hfr⟩ := h
        exact Or.inr (Or.inr ⟨ch, hch, hfr.symm, hfr ▸ lineContent_framePy ch⟩)
    · rcases List.mem_cons.mp h with h | h
      · exact Or.inr (Or.inl h)
      · rw [List.mem_singleton] at h
        exact Or.inr (Or.inl h)
  · rw [fallbackLines_eq]
    intro l hl
    rcases List.mem_append.mp hl with h | h
    · rw [List.mem_map] at h
      obtain ⟨w, _, hfr⟩ := h
      exact Or.inr ⟨w ++ [' '], hfr ▸ lineContent_frameJs (w ++ [' '])⟩
    · rw [List.mem_singleton] at h
      exact Or.inl h

/-- C6, witness for the amended claim at the first line of a concrete run. -/
theorem c6_witness :
    (str "data: " = str "data: "
      ∨ str "data: " = str "data: [DONE]"
      ∨ ∃ ch ∈ producerChunks [] none 0,
          str "data: " = str "data: " ++ contentJsonPy ch
          ∧ lineContent (str "data: ") = some ch)
    ∧ (chatStream [] none 0).getLast? = some (str "data: [DONE]") :=
  ⟨(c6_line_format [] none 0).1 (str "data: ")
      (by rw [chatStream_eq]
          exact List.mem_append_left _ (List.mem_cons_self _ _)),
    (c6_line_format [] none 0).2.1⟩

/-- C7: for an empty message history and no context the Response Producer
still completes, the selected response is one of the canned nutrition
texts and is non-empty, and the relayed stream ends with the terminal
sentinel, for every possible `random.choice` draw. -/
theorem c7_empty_history_default :
    ∀ r : Nat,
      selectResponse [] none r ∈ NUTRITION_RESPONSES
      ∧ selectResponse [] none r ≠ []
      ∧ (chatStream [] none r).getLast? = some (str "data: [DONE]") := by
  intro r
  exact ⟨selectResponse_empty_mem r,
    nutrition_responses_nonempty _ (selectResponse_empty_mem r),
    getLast_chatStream [] none r⟩

/-- C8: serving the same request twice yields two identical, independent
streams.  The module scope of `route.ts` binds no mutable state, so the
handler's output is a function of the request's upstream outcome alone:
serving a second identical request after any prior history produces the
same stream, and the fallback sender's fragment counter starts from index
0 in each request, emitting every word exactly once before the sentinel. -/
theorem c8_no_shared_state :
    ∀ (w : World) (u : UpstreamOutcome),
      (servePost (servePost w u).1 u).2 = (servePost w u).2
      ∧ (servePost w u).2 = postChatLines u
      ∧ fallbackLines =
          (fallbackWords.map (fun w2 => str "data: " ++ contentJsonJs (w2 ++ [' '])))
            ++ [str "data: [DONE]"] := by
  intro w u
  exact ⟨rfl, rfl, fallbackLines_eq⟩

/-- C9: `POST /api/analyze-food` answers `success: true` on every path —
including when the upstream analysis collaborator is unreachable or
returns a non-success status — so the success flag never distinguishes an
upstream failure from a genuine result. -/
theorem c9_success_always_true :
    ∀ (u : AnalyzeUpstream) (res : UpstreamAnalysis) (q1 q2 q3 : ℚ),
      (analyzePost u q1 q2 q3).success = true
      ∧ (analyzePost .unreachable q1 q2 q3).success
          = (analyzePost (.response true res) q1 q2 q3).success := by
  intro u res q1 q2 q3
  refine ⟨?_, rfl⟩
  cases u with
  | unreachable => rfl
  | response ok result => cases ok <;> rfl

set_option maxRecDepth 40000 in
/-- C10: in the analyze-food fallback, the top-level `health_score` and the
score embedded in the `analysis` markdown come from two independent
`Math.random()` draws, each mapping `[0,1)` into `[60,99]`; for some pairs
of draws the two reported scores differ (draws 0 and 1/2 give 60 and 80),
and different draws give different responses to identical requests, so the
fallback is not deterministic. -/
theorem c10_independent_scores :
    (∀ q : ℚ, 0 ≤ q → q < 1 → 60 ≤ jsRandomScore q ∧ jsRandomScore q ≤ 99)
    ∧ ((analyzePost .unreachable 0 0 (1/2)).health_score = 60
        ∧ strContains (analyzePost .unreachable 0 0 (1/2)).analysis
            (str "Health Score: 80/100") = true
        ∧ strContains (analyzePost .unreachable 0 0 (1/2)).analysis
            (str "Health Score: 60/100") = false)
    ∧ analyzePost .unreachable 0 0 0 ≠ analyzePost .unreachable (1/2) 0 0 := by
  have h0 : jsRandomScore 0 = 60 := by rw [jsRandomScore]; norm_num
  have h2 : jsRandomScore (1/2) = 80 := by rw [jsRandomScore]; norm_num
  refine ⟨jsRandomScore_bounds, ⟨h0, ?_, ?_⟩, ?_⟩
  · show strContains (fallbackAnalysisText (1/2)) (str "Health Score: 80/100") = true
    rw [fallbackAnalysisText, h2]
    decide
  · show strContains (fallbackAnalysisText (1/2)) (str "Health Score: 60/100") = false
    rw [fallbackAnalysisText, h2]
    decide
  · intro heq
    have hh : jsRandomScore 0 = jsRandomScore (1/2) :=
      congrArg AnalyzeResponse.health_score heq
    rw [h0, h2] at hh
    exact absurd hh (by decide)

/-- C10, witness for the range bound at the draw 1/2. -/
theorem c10_witness :
    60 ≤ jsRandomScore (1/2) ∧ jsRandomScore (1/2) ≤ 99 :=
  c10_independent_scores.1 (1/2) (by norm_num) (by norm_num)

end HealthScan
